import Mathlib

/-!
Verification of the Tetris game core (src/main.ts).

This file gives a shallow embedding in Lean 4 of the pure game-state
transition engine of the repository: the data model (points, blocks,
grids, the immutable State record), the collision and bounds predicates,
row clearing, rotation geometry, the tick simulator and the event
reducer of the merged input/timer stream. Each Lean definition is a
direct transcription of the corresponding TypeScript function; JS
array-indexing semantics (out-of-range reads are undefined, hence
falsy) are made explicit, and the floating-point centroid arithmetic of
the rotation engine is modelled exactly with rationals, since every
intermediate value there has denominator 4 and is representable
exactly in binary floating point. The impure draws of newBlock are
modelled by passing the drawn blocks as explicit parameters.
-/

namespace Tetris

/-- Constants.GRID_WIDTH from the source. -/
def GRID_WIDTH : ℤ := 10

/-- Constants.GRID_HEIGHT from the source. -/
def GRID_HEIGHT : ℤ := 20

/-- Constants.TICK_RATE_MS from the source, as an exact rational. -/
def TICK_RATE_MS : ℚ := 200

/-- A point in 2D grid space; coordinates are JS numbers used only at
integer values. -/
structure Point where
  x : ℤ
  y : ℤ
  deriving DecidableEq, Repr

/-- A block (tetromino) is an array of points. -/
abbrev Block := List Point

/-- The two cell states of the game grid view. -/
inductive Cell where
  | EMPTY
  | FILLED
  deriving DecidableEq, Repr

/-- The queued movement intent. -/
inductive Direction where
  | LEFT
  | RIGHT
  | DOWN
  | NONE
  deriving DecidableEq, Repr

/-- The occupancy grid: a list of rows of numbers (0 free, 1 occupied). -/
abbrev Grid := List (List ℕ)

/-- The cell-state grid: a list of rows of Cell values. -/
abbrev GameGrid := List (List Cell)

/-- The immutable aggregate game state, field for field the State type
of the source. Numeric fields that only ever hold non-negative
integers are modelled with Nat. -/
structure State where
  gameEnd : Bool
  block : Block
  direction : Direction
  grid : Grid
  blockSettled : Bool
  gameGrid : GameGrid
  score : ℕ
  highscore : ℕ
  nextBlock : Block
  clearedRows : ℕ
  currentLevel : ℕ
  currentBlockType : String
  gamePaused : Bool
  deriving DecidableEq

/-- createSquareBlock from the source: the 2 by 2 square at (x, y). -/
def createSquareBlock (x y : ℤ) : Block :=
  [⟨x, y⟩, ⟨x + 1, y⟩, ⟨x, y + 1⟩, ⟨x + 1, y + 1⟩]

/-- The canonical I tetromino of the TETROMINOS table. -/
def tetroI : Block := [⟨4, 0⟩, ⟨4, 1⟩, ⟨4, 2⟩, ⟨4, 3⟩]

/-- The canonical O tetromino of the TETROMINOS table. -/
def tetroO : Block := [⟨4, 0⟩, ⟨5, 0⟩, ⟨4, 1⟩, ⟨5, 1⟩]

/-- The canonical T tetromino of the TETROMINOS table. -/
def tetroT : Block := [⟨4, 0⟩, ⟨3, 1⟩, ⟨4, 1⟩, ⟨5, 1⟩]

/-- The canonical S tetromino of the TETROMINOS table. -/
def tetroS : Block := [⟨4, 0⟩, ⟨5, 0⟩, ⟨3, 1⟩, ⟨4, 1⟩]

/-- The canonical Z tetromino of the TETROMINOS table. -/
def tetroZ : Block := [⟨3, 0⟩, ⟨4, 0⟩, ⟨4, 1⟩, ⟨5, 1⟩]

/-- The canonical J tetromino of the TETROMINOS table. -/
def tetroJ : Block := [⟨3, 0⟩, ⟨3, 1⟩, ⟨4, 1⟩, ⟨5, 1⟩]

/-- The canonical L tetromino of the TETROMINOS table. -/
def tetroL : Block := [⟨5, 0⟩, ⟨3, 1⟩, ⟨4, 1⟩, ⟨5, 1⟩]

/-- emptyGameGrid from the source: GRID_HEIGHT rows of GRID_WIDTH
EMPTY cells. -/
def emptyGameGrid : GameGrid :=
  List.replicate 20 (List.replicate 10 Cell.EMPTY)

/-- The all-zero occupancy grid built by initialState in the source. -/
def emptyGrid : Grid :=
  List.replicate 20 (List.replicate 10 (0 : ℕ))

/-- initialState from the source, parameterised by the block the
impure newBlock() call produced for the nextBlock field at module
load. STARTING_POSITION is (floor(10 / 2) - 1, 0) = (4, 0). -/
def initialState (b0 : Block) : State where
  gameEnd := false
  block := createSquareBlock 4 0
  direction := Direction.NONE
  grid := emptyGrid
  blockSettled := false
  gameGrid := emptyGameGrid
  score := 0
  highscore := 0
  nextBlock := b0
  clearedRows := 0
  currentLevel := 1
  currentBlockType := "I"
  gamePaused := false

/-- getTickRate from the source. The JS expression TICK_RATE_MS * 0.1
evaluates to exactly 20 in double arithmetic, modelled as the exact
rational 200 * (1 / 10). -/
def getTickRate (clearedRows : ℕ) : ℚ :=
  if clearedRows < 1 then TICK_RATE_MS * 1
  else TICK_RATE_MS * (1 / 10)

/-- JS read grid[y][x] with undefined treated as 0: out-of-range or
negative indices read as a free cell, exactly as the short-circuit
grid[point.y] && grid[point.y][point.x] === 1 behaves. -/
def occAt (grid : Grid) (y x : ℤ) : ℕ :=
  if 0 ≤ y ∧ 0 ≤ x then (grid.getD y.toNat []).getD x.toNat 0 else 0

/-- willCollide from the source: some point is at or below the bottom
edge, or overlaps an occupied cell of the grid. -/
def willCollide (block : Block) (grid : Grid) : Bool :=
  block.any fun point =>
    decide (GRID_HEIGHT ≤ point.y) || decide (occAt grid point.y point.x = 1)

/-- isOutOfBound from the source: some point has x negative or at or
beyond the right edge. -/
def isOutOfBound (block : Block) : Bool :=
  block.any fun point => decide (point.x < 0) || decide (GRID_WIDTH ≤ point.x)

/-- The record returned by clearFullRows. -/
structure ClearResult where
  newGrid : Grid
  newGameGrid : GameGrid
  clearedRows : ℕ
  deriving DecidableEq

/-- clearFullRows from the source: keep the rows with a free cell,
count the removed rows against the occupancy grid, and pad that many
fresh empty rows on top of both grids. The fresh rows take the width
of the first input row, as new Array(grid[0].length) does. -/
def clearFullRows (grid : Grid) (gameGrid : GameGrid) : ClearResult :=
  let newGrid := grid.filter fun row => row.any fun cell => cell == 0
  let newGameGrid :=
    gameGrid.filter fun row => row.any fun cell => decide (cell ≠ Cell.FILLED)
  let clearedRows := grid.length - newGrid.length
  let emptyRows :=
    List.replicate clearedRows (List.replicate (grid.headD []).length (0 : ℕ))
  let emptyGameRows :=
    List.replicate clearedRows
      (List.replicate (gameGrid.headD []).length Cell.EMPTY)
  ⟨emptyRows ++ newGrid, emptyGameRows ++ newGameGrid, clearedRows⟩

/-- A full occupancy row in the sense of the specification: a row
with no free cell. -/
def isFullRow (row : List ℕ) : Bool :=
  row.all fun cell => decide (cell ≠ 0)

/-- A full cell-state row in the sense of the specification: a row
with every cell FILLED. -/
def isFullGameRow (row : List Cell) : Bool :=
  row.all fun cell => cell == Cell.FILLED

/-- One in-place style cell write grid[y][x] := v on a copied grid:
a functional update that leaves the grid unchanged when the indices
fall outside it (settled blocks only ever carry in-range points). -/
def setCell {α : Type} (grid : List (List α)) (y x : ℤ) (v : α) :
    List (List α) :=
  if 0 ≤ y ∧ 0 ≤ x then grid.set y.toNat ((grid.getD y.toNat []).set x.toNat v)
  else grid

/-- The forEach loop of the settled branch restricted to the occupancy
grid: stamp every point of the block as 1. -/
def stampGrid (block : Block) (grid : Grid) : Grid :=
  block.foldl (fun g p => setCell g p.y p.x 1) grid

/-- The forEach loop of the settled branch restricted to the
cell-state grid: stamp every point of the block as FILLED. -/
def stampGameGrid (block : Block) (gameGrid : GameGrid) : GameGrid :=
  block.foldl (fun g p => setCell g p.y p.x Cell.FILLED) gameGrid

/-- tick from the source. The two impure newBlock() draws of the
settled branch are passed in: g1 is the freshly generated candidate
used only for the game-over collision check, g2 is the draw that
becomes the new nextBlock. -/
def tick (g1 g2 : Block) (s : State) : State :=
  if s.gameEnd || s.gamePaused then s
  else if s.blockSettled then
    let updatedGrid := stampGrid s.block s.grid
    let updatedGameGrid := stampGameGrid s.block s.gameGrid
    if willCollide g1 updatedGrid then { s with gameEnd := true }
    else if (updatedGrid.headD []).any (fun cell => cell == 1) then
      { s with gameEnd := true }
    else
      let res := clearFullRows updatedGrid updatedGameGrid
      { s with
          block := s.nextBlock
          nextBlock := g2
          blockSettled := false
          direction := Direction.NONE
          grid := res.newGrid
          gameGrid := res.newGameGrid
          score := s.score + 10 * res.clearedRows
          currentLevel :=
            if 0 < res.clearedRows then s.currentLevel + 1
            else s.currentLevel }
  else
    let xShift : ℤ :=
      if s.direction = Direction.LEFT then -1
      else if s.direction = Direction.RIGHT then 1
      else 0
    let nextBlock := s.block.map fun p => Point.mk (p.x + xShift) (p.y + 1)
    let nextBlock2 :=
      if isOutOfBound nextBlock then
        nextBlock.map fun p => Point.mk (p.x - xShift) p.y
      else nextBlock
    if willCollide nextBlock2 s.grid then { s with blockSettled := true }
    else { s with block := nextBlock2, direction := Direction.NONE }

/-- getBlockCenter from the source: the arithmetic mean of the points,
as exact rationals. -/
def getBlockCenter (block : Block) : ℚ × ℚ :=
  let sum := block.foldl (fun acc p => (acc.1 + (p.x : ℚ), acc.2 + (p.y : ℚ)))
    ((0 : ℚ), (0 : ℚ))
  (sum.1 / (block.length : ℚ), sum.2 / (block.length : ℚ))

/-- Math.round of JS on the exact rationals arising here: round half
towards positive infinity, i.e. the floor of q + 1/2. -/
def jsRound (q : ℚ) : ℤ := ⌊q + 1 / 2⌋

/-- The non-O branch of rotateBlock: rotate every point 90 degrees
around the centroid, rounding each coordinate with Math.round. -/
def rotateAroundCenter (block : Block) : Block :=
  let origin := getBlockCenter block
  block.map fun p =>
    Point.mk (jsRound (origin.1 + (p.y : ℚ) - origin.2))
      (jsRound (origin.2 - (p.x : ℚ) + origin.1))

/-- rotateBlock from the source: identity for type O, centroid
rotation otherwise. -/
def rotateBlock (block : Block) (type : String) : Block :=
  if type == "O" then block else rotateAroundCenter block

/-- The events the merged game$ stream delivers to the scan reducer.
NONE is the startWith value of the direction stream, which hits the
default branch. -/
inductive Event where
  | TICK
  | LEFT
  | RIGHT
  | DOWN
  | ROTATE
  | PAUSE
  | RESTART
  | NONE
  deriving DecidableEq, Repr

/-- The scan reducer of game$, switching on the event exactly as the
source does. b0 is the block captured in the module-level initialState
(reused by every RESTART); g1, g2 are the newBlock() draws a TICK may
consume. The ROTATE case transcribes the source fall-through: when
the rotated block fails either check, control falls into the PAUSE
case and the pause flag is toggled. -/
def reduce (b0 g1 g2 : Block) (event : Event) (state : State) : State :=
  match event with
  | Event.TICK => tick g1 g2 state
  | Event.LEFT =>
      if state.direction = Direction.NONE then
        { state with direction := Direction.LEFT }
      else state
  | Event.RIGHT =>
      if state.direction = Direction.NONE then
        { state with direction := Direction.RIGHT }
      else state
  | Event.DOWN =>
      if state.direction = Direction.NONE then
        { state with direction := Direction.DOWN }
      else state
  | Event.RESTART => { initialState b0 with highscore := state.highscore }
  | Event.ROTATE =>
      let rotated := rotateBlock state.block state.currentBlockType
      if !isOutOfBound rotated && !willCollide rotated state.grid then
        { state with block := rotated }
      else
        { state with gamePaused := !state.gamePaused }
  | Event.PAUSE => { state with gamePaused := !state.gamePaused }
  | Event.NONE => state

/-- The states reachable from the initial state under any sequence of
events, with arbitrary outcomes of the random draws. -/
inductive Reachable (b0 : Block) : State → Prop where
  | init : Reachable b0 (initialState b0)
  | step : ∀ (s : State) (g1 g2 : Block) (e : Event),
      Reachable b0 s → Reachable b0 (reduce b0 g1 g2 e s)

/-- The airborne step as the specification words it, for comparison
with the airborne branch of tick: advance every point down by one and
sideways by -1, 0 or +1 per the pending direction; if the candidate is
out of horizontal bounds, revert only the x shift while keeping the y
advance; if the possibly reverted candidate collides, keep the
pre-advance shape and mark it settled; otherwise commit the candidate
and reset the direction to NONE. -/
def tickAirborneSpec (s : State) : State :=
  let xShift : ℤ :=
    if s.direction = Direction.LEFT then -1
    else if s.direction = Direction.RIGHT then 1
    else 0
  let candidate := s.block.map fun p => Point.mk (p.x + xShift) (p.y + 1)
  let candidate2 :=
    if isOutOfBound candidate then s.block.map fun p => Point.mk p.x (p.y + 1)
    else candidate
  if willCollide candidate2 s.grid then { s with blockSettled := true }
  else { s with block := candidate2, direction := Direction.NONE }

/-! Concrete states used as test vectors by the counterexamples and
witnesses below. -/

/-- A state whose falling block is the I piece hugging the right wall:
its centroid rotation reaches x = 10 and 11, so the rotation request
fails the bounds check. -/
def c1State : State :=
  { initialState tetroI with block := [⟨9, 0⟩, ⟨9, 1⟩, ⟨9, 2⟩, ⟨9, 3⟩] }

/-- A settled state about to clear exactly one row: the bottom row is
occupied except at x = 4 and the settled I piece fills column 4 of
rows 16 to 19. -/
def c2State : State :=
  { initialState tetroI with
      block := [⟨4, 16⟩, ⟨4, 17⟩, ⟨4, 18⟩, ⟨4, 19⟩]
      blockSettled := true
      grid := List.replicate 19 (List.replicate 10 (0 : ℕ)) ++
        [[1, 1, 1, 1, 0, 1, 1, 1, 1, 1]]
      gameGrid := List.replicate 19 (List.replicate 10 Cell.EMPTY) ++
        [[Cell.FILLED, Cell.FILLED, Cell.FILLED, Cell.FILLED, Cell.EMPTY,
          Cell.FILLED, Cell.FILLED, Cell.FILLED, Cell.FILLED, Cell.FILLED]] }

/-- A settled state whose block occupies the top row, so stamping it
triggers the top-row game-over condition. -/
def c3State : State :=
  { initialState tetroI with block := createSquareBlock 0 0, blockSettled := true }

/-- An airborne state two rows above the floor: the fall candidate
collides with the bottom edge and the block settles. -/
def c10Base : State :=
  { initialState tetroI with block := createSquareBlock 4 18 }

/-- A small occupancy grid with one full row, paired with c4GameGrid. -/
def c4Grid : Grid := [[1, 1], [0, 1]]

/-- The cell-state grid in lockstep with c4Grid. -/
def c4GameGrid : GameGrid :=
  [[Cell.FILLED, Cell.FILLED], [Cell.EMPTY, Cell.FILLED]]

/-! General helper lemmas. -/

/-- tick never changes the currentBlockType field. -/
theorem tick_currentBlockType (g1 g2 : Block) (s : State) :
    (tick g1 g2 s).currentBlockType = s.currentBlockType := by
  simp only [tick]
  repeat' split
  all_goals rfl

/-- tick never changes the highscore field. -/
theorem tick_highscore (g1 g2 : Block) (s : State) :
    (tick g1 g2 s).highscore = s.highscore := by
  simp only [tick]
  repeat' split
  all_goals rfl

/-- tick never changes the clearedRows field: the count returned by
clearFullRows is consumed by the score and the level but is never
written back into the state. -/
theorem tick_clearedRows (g1 g2 : Block) (s : State) :
    (tick g1 g2 s).clearedRows = s.clearedRows := by
  simp only [tick]
  repeat' split
  all_goals rfl

/-- Concrete evaluation of the centroid rotation of the I piece at
the right wall: the rotated points reach x = 10 and x = 11. -/
theorem rotate_c1_block :
    rotateBlock [⟨9, 0⟩, ⟨9, 1⟩, ⟨9, 2⟩, ⟨9, 3⟩] "I" =
      [⟨8, 2⟩, ⟨9, 2⟩, ⟨10, 2⟩, ⟨11, 2⟩] := by
  simp [rotateBlock, rotateAroundCenter, getBlockCenter, jsRound]
  norm_num

/-- C7: for every state with the terminated flag or the paused flag
set, tick returns its input state with every field value equal. -/
theorem C7_tick_noop_when_ended_or_paused (g1 g2 : Block) (s : State)
    (h : s.gameEnd = true ∨ s.gamePaused = true) :
    tick g1 g2 s = s := by
  rcases h with h | h <;> simp [tick, h]

/-- C7 witness: tick is the identity on a concrete terminated state. -/
theorem C7_witness :
    ({ initialState tetroI with gameEnd := true } : State).gameEnd = true ∧
      tick tetroI tetroO { initialState tetroI with gameEnd := true } =
        { initialState tetroI with gameEnd := true } :=
  ⟨rfl, C7_tick_noop_when_ended_or_paused tetroI tetroO _ (Or.inl rfl)⟩

/-- C1: the claim fails on the source. At c1State the rotation of the
falling block is out of bounds, so the rotation is rejected, but the
ROTATE event does not leave the state unchanged: the switch falls
through into the PAUSE case and toggles the gamePaused flag. -/
theorem C1_rotate_fallthrough_toggles_pause :
    isOutOfBound (rotateBlock c1State.block c1State.currentBlockType) = true ∧
    reduce tetroI tetroI tetroI Event.ROTATE c1State =
      { c1State with gamePaused := true } ∧
    ({ c1State with gamePaused := true } : State) ≠ c1State := by
  have hb : c1State.block = [⟨9, 0⟩, ⟨9, 1⟩, ⟨9, 2⟩, ⟨9, 3⟩] := rfl
  have ht : c1State.currentBlockType = "I" := rfl
  have hrot : rotateBlock c1State.block c1State.currentBlockType =
      [⟨8, 2⟩, ⟨9, 2⟩, ⟨10, 2⟩, ⟨11, 2⟩] := by rw [hb, ht, rotate_c1_block]
  refine ⟨by rw [hrot]; decide, ?_, by decide⟩
  simp only [reduce, hrot]
  decide

/-- C2: the claim fails on the source. At c2State the settled tick
clears exactly one row and the score rises by 10, yet the clearedRows
counter of the resulting state still equals its old value 0, because
the settled branch never writes the clearFullRows count back into the
state; the recomputed tick interval therefore stays at the base rate
TICK_RATE_MS * 1 instead of the faster tier TICK_RATE_MS * (1 / 10). -/
theorem C2_counter_never_incremented :
    (clearFullRows (stampGrid c2State.block c2State.grid)
        (stampGameGrid c2State.block c2State.gameGrid)).clearedRows = 1 ∧
    (tick tetroI tetroO c2State).score = c2State.score + 10 * 1 ∧
    c2State.clearedRows = 0 ∧
    (tick tetroI tetroO c2State).clearedRows = 0 ∧
    getTickRate (tick tetroI tetroO c2State).clearedRows = TICK_RATE_MS * 1 ∧
    getTickRate (tick tetroI tetroO c2State).clearedRows ≠
      TICK_RATE_MS * (1 / 10) := by
  have h0 : (tick tetroI tetroO c2State).clearedRows = 0 := by decide
  refine ⟨by decide, by decide, by decide, h0, ?_, ?_⟩
  · rw [h0]; simp [getTickRate]
  · rw [h0]; simp only [getTickRate, TICK_RATE_MS]
    norm_num

/-- C3 counterexample: tick at the settled state c3State terminates
the game and the stamped copy of the occupancy grid holds the block
cell (0, 0), but the grids of the resulting terminated state are the
unchanged pre-stamp grids of the input, which do not contain the
stamped cells. -/
theorem C3_terminated_grids_not_stamped :
    (tick tetroI tetroI c3State).gameEnd = true ∧
    occAt (stampGrid c3State.block c3State.grid) 0 0 = 1 ∧
    (tick tetroI tetroI c3State).grid = c3State.grid ∧
    occAt (tick tetroI tetroI c3State).grid 0 0 = 0 ∧
    (tick tetroI tetroI c3State).gameGrid = c3State.gameGrid := by decide

/-- C3 amended: in the settled branch, tick first stamps every point
of the falling shape into copies of both grids and evaluates the two
game-over conditions against those stamped copies; whenever one of
them fires, the result is the input state with only gameEnd set to
true, so the stamped grids are discarded rather than kept. -/
theorem C3_amended_gameover_on_stamped_grids (g1 g2 : Block) (s : State)
    (hset : s.blockSettled = true) (hend : s.gameEnd = false)
    (hp : s.gamePaused = false)
    (hover : willCollide g1 (stampGrid s.block s.grid) = true ∨
      ((stampGrid s.block s.grid).headD []).any (fun cell => cell == 1) = true) :
    tick g1 g2 s = { s with gameEnd := true } := by
  rcases hover with h | h
  · simp [tick, hset, hend, hp, h]
  · have h2 : (1 : ℕ) ∈ (stampGrid s.block s.grid).head?.getD [] := by
      simpa using h
    rcases hw : willCollide g1 (stampGrid s.block s.grid) <;>
      simp [tick, hset, hend, hp, hw, h2]

/-- C3 witness: the amended theorem applied to the concrete state
c3State, whose stamped grid occupies the top row. -/
theorem C3_amended_witness :
    c3State.blockSettled = true ∧ c3State.gameEnd = false ∧
    c3State.gamePaused = false ∧
    ((stampGrid c3State.block c3State.grid).headD []).any
      (fun cell => cell == 1) = true ∧
    tick tetroI tetroI c3State = { c3State with gameEnd := true } :=
  ⟨rfl, rfl, rfl, by decide,
    C3_amended_gameover_on_stamped_grids tetroI tetroI c3State rfl rfl rfl
      (Or.inr (by decide))⟩

/-- C10 counterexample: at the airborne state c10Base the fall
candidate collides with the floor, and tick with direction DOWN
differs from tick with direction NONE: the settle branch keeps the
queued direction value. -/
theorem C10_down_differs_from_none :
    tick tetroI tetroI { c10Base with direction := Direction.DOWN } ≠
      tick tetroI tetroI { c10Base with direction := Direction.NONE } := by
  decide

/-- C10 amended: for every airborne state, tick with direction DOWN
agrees with tick with direction NONE on every field except direction:
when the fall candidate does not collide the two results are exactly
equal, and when it collides (the settle case) the direction field
keeps the respective queued value instead of being reset. -/
theorem C10_amended_down_equals_none_up_to_direction (g1 g2 : Block)
    (s : State) (hend : s.gameEnd = false) (hp : s.gamePaused = false)
    (hset : s.blockSettled = false) :
    tick g1 g2 { s with direction := Direction.DOWN } =
      { tick g1 g2 { s with direction := Direction.NONE } with
          direction :=
            if willCollide (s.block.map fun p => Point.mk p.x (p.y + 1)) s.grid
            then Direction.DOWN else Direction.NONE } := by
  simp only [tick, hend, hp, hset]
  simp [add_zero, sub_zero, List.map_map, Function.comp_def]
  split <;> simp_all

/-- C10 witness for the amended theorem, at the concrete state
c10Base where the fall candidate collides with the floor. -/
theorem C10_amended_witness :
    c10Base.gameEnd = false ∧ c10Base.gamePaused = false ∧
    c10Base.blockSettled = false ∧
    tick tetroI tetroO { c10Base with direction := Direction.DOWN } =
      { tick tetroI tetroO { c10Base with direction := Direction.NONE } with
          direction :=
            if willCollide (c10Base.block.map fun p => Point.mk p.x (p.y + 1))
                c10Base.grid
            then Direction.DOWN else Direction.NONE } :=
  ⟨rfl, rfl, rfl,
    C10_amended_down_equals_none_up_to_direction tetroI tetroO c10Base rfl rfl rfl⟩

/-- C6: on every airborne state (not terminated, not paused, not
settled), tick computes exactly the candidate-advance, bounds-revert,
collide-settle, commit-and-reset step that the specification
describes, stated as equality with tickAirborneSpec. -/
theorem C6_airborne_step_matches_spec (g1 g2 : Block) (s : State)
    (hend : s.gameEnd = false) (hp : s.gamePaused = false)
    (hset : s.blockSettled = false) :
    tick g1 g2 s = tickAirborneSpec s := by
  simp only [tick, tickAirborneSpec, hend, hp, hset]
  simp [List.map_map, Function.comp_def, add_sub_cancel_right]

/-- C6 witness: the airborne characterization at a concrete state in
which the naive RIGHT candidate leaves the grid, so the x shift is
reverted while the fall proceeds. -/
theorem C6_witness :
    ({ c1State with direction := Direction.RIGHT } : State).gameEnd = false ∧
    ({ c1State with direction := Direction.RIGHT } : State).gamePaused = false ∧
    ({ c1State with direction := Direction.RIGHT } : State).blockSettled = false ∧
    tick tetroI tetroO { c1State with direction := Direction.RIGHT } =
      tickAirborneSpec { c1State with direction := Direction.RIGHT } :=
  ⟨rfl, rfl, rfl,
    C6_airborne_step_matches_spec tetroI tetroO _ rfl rfl rfl⟩

/-- C5: for every settled state in which neither game-over condition
fires, the resulting score equals the previous score plus 10 times
the number of rows cleared this step, and the level increases by
exactly 1 when at least one row cleared and is unchanged otherwise,
regardless of how many rows cleared simultaneously. -/
theorem C5_score_and_level (g1 g2 : Block) (s : State)
    (hset : s.blockSettled = true) (hend : s.gameEnd = false)
    (hp : s.gamePaused = false)
    (h1 : willCollide g1 (stampGrid s.block s.grid) = false)
    (h2 : ((stampGrid s.block s.grid).headD []).any
      (fun cell => cell == 1) = false) :
    (tick g1 g2 s).score = s.score + 10 *
      (clearFullRows (stampGrid s.block s.grid)
        (stampGameGrid s.block s.gameGrid)).clearedRows ∧
    (tick g1 g2 s).currentLevel =
      (if 0 < (clearFullRows (stampGrid s.block s.grid)
          (stampGameGrid s.block s.gameGrid)).clearedRows
       then s.currentLevel + 1 else s.currentLevel) := by
  have h2a : ∀ x ∈ (stampGrid s.block s.grid).head?.getD [], ¬ x = 1 := by
    simpa using h2
  have h2n : ¬ (1 : ℕ) ∈ (stampGrid s.block s.grid).head?.getD [] :=
    fun hm => h2a 1 hm rfl
  simp [tick, hset, hend, hp, h1, h2n]

/-- C5 witness: at the concrete settled state c2State one row clears,
the score rises from 0 to 10 and the level from 1 to 2. -/
theorem C5_witness :
    c2State.blockSettled = true ∧ c2State.gameEnd = false ∧
    c2State.gamePaused = false ∧
    willCollide tetroI (stampGrid c2State.block c2State.grid) = false ∧
    ((stampGrid c2State.block c2State.grid).headD []).any
      (fun cell => cell == 1) = false ∧
    ((tick tetroI tetroO c2State).score = c2State.score + 10 *
      (clearFullRows (stampGrid c2State.block c2State.grid)
        (stampGameGrid c2State.block c2State.gameGrid)).clearedRows ∧
    (tick tetroI tetroO c2State).currentLevel =
      (if 0 < (clearFullRows (stampGrid c2State.block c2State.grid)
          (stampGameGrid c2State.block c2State.gameGrid)).clearedRows
       then c2State.currentLevel + 1 else c2State.currentLevel)) :=
  ⟨rfl, rfl, rfl, by decide, by decide,
    C5_score_and_level tetroI tetroO c2State rfl rfl rfl (by decide) (by decide)⟩

/-- Every event either keeps the currentBlockType field or resets it
to the value "I" of the baseline state. -/
theorem reduce_currentBlockType (b0 g1 g2 : Block) (e : Event) (s : State) :
    (reduce b0 g1 g2 e s).currentBlockType = s.currentBlockType ∨
      (reduce b0 g1 g2 e s).currentBlockType = "I" := by
  cases e with
  | TICK => exact Or.inl (tick_currentBlockType g1 g2 s)
  | LEFT => simp only [reduce]; split <;> exact Or.inl rfl
  | RIGHT => simp only [reduce]; split <;> exact Or.inl rfl
  | DOWN => simp only [reduce]; split <;> exact Or.inl rfl
  | ROTATE => simp only [reduce]; split <;> exact Or.inl rfl
  | PAUSE => exact Or.inl rfl
  | RESTART => exact Or.inr rfl
  | NONE => exact Or.inl rfl

/-- C8: in every state reachable from the initial state under any
event sequence, the currentBlockType field equals "I", so rotateBlock
is never invoked with type "O" and every piece, the square included,
is rotated by the centroid formula rather than being exempt. -/
theorem C8_currentBlockType_always_I (b0 : Block) (s : State)
    (h : Reachable b0 s) :
    s.currentBlockType = "I" ∧
      rotateBlock s.block s.currentBlockType = rotateAroundCenter s.block := by
  have hi : s.currentBlockType = "I" := by
    induction h with
    | init => rfl
    | step s g1 g2 e hs ih =>
        rcases reduce_currentBlockType b0 g1 g2 e s with h1 | h1
        · rw [h1, ih]
        · exact h1
  refine ⟨hi, ?_⟩
  rw [hi]
  rfl

/-- C8 witness: the invariant at the reachable initial state. -/
theorem C8_witness :
    (initialState tetroO).currentBlockType = "I" ∧
      rotateBlock (initialState tetroO).block
          (initialState tetroO).currentBlockType =
        rotateAroundCenter (initialState tetroO).block :=
  C8_currentBlockType_always_I tetroO (initialState tetroO) Reachable.init

/-- No event ever writes the highscore field: every transition either
keeps it or, on RESTART, copies the current value forward. -/
theorem reduce_highscore (b0 g1 g2 : Block) (e : Event) (s : State) :
    (reduce b0 g1 g2 e s).highscore = s.highscore := by
  cases e with
  | TICK => exact tick_highscore g1 g2 s
  | LEFT => simp only [reduce]; split <;> rfl
  | RIGHT => simp only [reduce]; split <;> rfl
  | DOWN => simp only [reduce]; split <;> rfl
  | ROTATE => simp only [reduce]; split <;> rfl
  | PAUSE => rfl
  | RESTART => rfl
  | NONE => rfl

/-- C9: in every state reachable from the initial state under any
event sequence, the highscore field equals 0: no transition copies
the score into it, and RESTART merely carries the value forward. -/
theorem C9_highscore_always_zero (b0 : Block) (s : State)
    (h : Reachable b0 s) : s.highscore = 0 := by
  induction h with
  | init => rfl
  | step s g1 g2 e hs ih => rw [reduce_highscore]; exact ih

/-- C9 witness: the invariant at the reachable initial state. -/
theorem C9_witness : (initialState tetroT).highscore = 0 :=
  C9_highscore_always_zero tetroT (initialState tetroT) Reachable.init

/-- The keep predicate of the occupancy filter in clearFullRows is
the negation of row fullness. -/
theorem any_zero_eq_not_isFullRow (row : List ℕ) :
    (row.any fun cell => cell == 0) = ! isFullRow row := by
  rw [Bool.eq_iff_iff]
  simp [isFullRow, List.any_eq_true, List.all_eq_true]

/-- The keep predicate of the cell-state filter in clearFullRows is
the negation of row fullness. -/
theorem any_nonfilled_eq_not_isFullGameRow (row : List Cell) :
    (row.any fun cell => decide (cell ≠ Cell.FILLED)) = ! isFullGameRow row := by
  rw [Bool.eq_iff_iff]
  simp [isFullGameRow, List.any_eq_true, List.all_eq_true]

/-- Lists related pointwise by predicates that agree have equal
countP values. -/
theorem countP_eq_of_forall₂ {α β : Type} (p : α → Bool) (q : β → Bool)
    {l : List α} {m : List β}
    (h : List.Forall₂ (fun a b => p a = q b) l m) :
    l.countP p = m.countP q := by
  induction h with
  | nil => rfl
  | cons hab _ ih => simp [List.countP_cons, hab, ih]

/-- Dropping the rows kept by a filter leaves as many rows as the
complementary filter keeps. -/
theorem length_sub_filter {α : Type} (p : α → Bool) (l : List α) :
    l.length - (l.filter p).length = (l.filter fun a => !p a).length := by
  induction l with
  | nil => rfl
  | cons a t ih =>
      have hle := List.length_filter_le p t
      cases h : p a <;> simp [List.filter_cons, h, List.length_cons] <;> omega

/-- C4 counterexample: for the same-dimension pair of one-cell grids
[[0]] and [[FILLED]], clearFullRows returns a cell-state grid with 0
rows while the input has 1 row: the single padding count is computed
from the occupancy grid, which has no full row here, while the
cell-state filter drops its all-FILLED row, so the row count of the
cell-state grid is not preserved. -/
theorem C4_row_count_not_preserved_without_lockstep :
    ([[0]] : Grid).length = 1 ∧ ([[Cell.FILLED]] : GameGrid).length = 1 ∧
    ([[0]] : Grid).headD [] = [0] ∧
    ([[Cell.FILLED]] : GameGrid).headD [] = [Cell.FILLED] ∧
    (clearFullRows [[0]] [[Cell.FILLED]]).newGameGrid.length = 0 := by decide

/-- C4 amended: for every pair of same-dimension nonempty grids whose
rows agree on fullness (in particular for the lockstep pairs the game
maintains), clearFullRows returns grids with the same number of rows
and the same width as the inputs, equal to the non-full rows of the
respective input in their original order preceded by clearedRows
all-empty rows at the top, where clearedRows is exactly the number of
full rows of either input; the inputs are never mutated, the embedding
being purely functional. -/
theorem C4_amended_clearFullRows_shape (grid : Grid) (gameGrid : GameGrid)
    (w : ℕ) (hg : grid ≠ [])
    (hwg : ∀ row ∈ grid, row.length = w)
    (hwgg : ∀ row ∈ gameGrid, row.length = w)
    (hlen : grid.length = gameGrid.length)
    (hagree : List.Forall₂ (fun r c => isFullRow r = isFullGameRow c) grid gameGrid) :
    (clearFullRows grid gameGrid).clearedRows = (grid.filter isFullRow).length ∧
    (clearFullRows grid gameGrid).clearedRows =
      (gameGrid.filter isFullGameRow).length ∧
    (clearFullRows grid gameGrid).newGrid =
      List.replicate (clearFullRows grid gameGrid).clearedRows
          (List.replicate w (0 : ℕ)) ++
        grid.filter (fun row => ! isFullRow row) ∧
    (clearFullRows grid gameGrid).newGameGrid =
      List.replicate (clearFullRows grid gameGrid).clearedRows
          (List.replicate w Cell.EMPTY) ++
        gameGrid.filter (fun row => ! isFullGameRow row) ∧
    (clearFullRows grid gameGrid).newGrid.length = grid.length ∧
    (clearFullRows grid gameGrid).newGameGrid.length = gameGrid.length ∧
    (∀ row ∈ (clearFullRows grid gameGrid).newGrid, row.length = w) ∧
    (∀ row ∈ (clearFullRows grid gameGrid).newGameGrid, row.length = w) := by
  have hggne : gameGrid ≠ [] := by
    intro hnil
    rw [hnil] at hlen
    simp only [List.length_nil] at hlen
    exact hg (List.length_eq_zero.mp hlen)
  have hhead : (grid.headD []).length = w := by
    cases grid with
    | nil => exact absurd rfl hg
    | cons r t => exact hwg r (List.mem_cons_self r t)
  have hhead2 : (gameGrid.headD []).length = w := by
    cases gameGrid with
    | nil => exact absurd rfl hggne
    | cons r t => exact hwgg r (List.mem_cons_self r t)
  have hfg : (grid.filter fun row => row.any fun cell => cell == 0) =
      grid.filter (fun row => ! isFullRow row) :=
    List.filter_congr fun a _ => any_zero_eq_not_isFullRow a
  have hfgg : (gameGrid.filter fun row => row.any fun cell =>
        decide (cell ≠ Cell.FILLED)) =
      gameGrid.filter (fun row => ! isFullGameRow row) :=
    List.filter_congr fun a _ => any_nonfilled_eq_not_isFullGameRow a
  have hcr0 : (clearFullRows grid gameGrid).clearedRows =
      grid.length - (grid.filter fun row => row.any fun cell => cell == 0).length :=
    rfl
  have hcr : (clearFullRows grid gameGrid).clearedRows =
      grid.length - (grid.filter fun row => ! isFullRow row).length := by
    rw [hcr0, hfg]
  have hc1 : (clearFullRows grid gameGrid).clearedRows =
      (grid.filter isFullRow).length := by
    rw [hcr, length_sub_filter]
    exact congrArg List.length (List.filter_congr fun a _ => Bool.not_not _)
  have hc2 : (clearFullRows grid gameGrid).clearedRows =
      (gameGrid.filter isFullGameRow).length := by
    rw [hc1]
    exact (List.countP_eq_length_filter _ _).symm.trans
      ((countP_eq_of_forall₂ _ _ hagree).trans (List.countP_eq_length_filter _ _))
  have hng : (clearFullRows grid gameGrid).newGrid =
      List.replicate (clearFullRows grid gameGrid).clearedRows
          (List.replicate w (0 : ℕ)) ++
        grid.filter (fun row => ! isFullRow row) := by
    show List.replicate _ (List.replicate (grid.headD []).length (0 : ℕ)) ++
        (grid.filter fun row => row.any fun cell => cell == 0) = _
    rw [hhead, ← hcr0, hfg]
  have hngg : (clearFullRows grid gameGrid).newGameGrid =
      List.replicate (clearFullRows grid gameGrid).clearedRows
          (List.replicate w Cell.EMPTY) ++
        gameGrid.filter (fun row => ! isFullGameRow row) := by
    show List.replicate _ (List.replicate (gameGrid.headD []).length Cell.EMPTY) ++
        (gameGrid.filter fun row => row.any fun cell => decide (cell ≠ Cell.FILLED)) = _
    rw [hhead2, ← hcr0, hfgg]
  have hl1 : (clearFullRows grid gameGrid).newGrid.length = grid.length := by
    rw [hng, List.length_append, List.length_replicate, hcr]
    have hb := List.length_filter_le (fun row => ! isFullRow row) grid
    omega
  have hl2 : (clearFullRows grid gameGrid).newGameGrid.length = gameGrid.length := by
    rw [hngg, List.length_append, List.length_replicate, hc2]
    have ha := length_sub_filter isFullGameRow gameGrid
    have hb := List.length_filter_le isFullGameRow gameGrid
    omega
  refine ⟨hc1, hc2, hng, hngg, hl1, hl2, ?_, ?_⟩
  · rw [hng]
    intro row hrow
    rcases List.mem_append.mp hrow with hmem | hmem
    · rw [List.eq_of_mem_replicate hmem]
      exact List.length_replicate w 0
    · exact hwg row (List.mem_of_mem_filter hmem)
  · rw [hngg]
    intro row hrow
    rcases List.mem_append.mp hrow with hmem | hmem
    · rw [List.eq_of_mem_replicate hmem]
      exact List.length_replicate w Cell.EMPTY
    · exact hwgg row (List.mem_of_mem_filter hmem)

/-- C4 witness: the amended theorem at the concrete lockstep pair
c4Grid and c4GameGrid, whose first row is full. -/
theorem C4_amended_witness :
    c4Grid ≠ [] ∧
    (∀ row ∈ c4Grid, row.length = 2) ∧
    (∀ row ∈ c4GameGrid, row.length = 2) ∧
    c4Grid.length = c4GameGrid.length ∧
    ((clearFullRows c4Grid c4GameGrid).clearedRows =
        (c4Grid.filter isFullRow).length ∧
      (clearFullRows c4Grid c4GameGrid).clearedRows =
        (c4GameGrid.filter isFullGameRow).length ∧
      (clearFullRows c4Grid c4GameGrid).newGrid =
        List.replicate (clearFullRows c4Grid c4GameGrid).clearedRows
            (List.replicate 2 (0 : ℕ)) ++
          c4Grid.filter (fun row => ! isFullRow row) ∧
      (clearFullRows c4Grid c4GameGrid).newGameGrid =
        List.replicate (clearFullRows c4Grid c4GameGrid).clearedRows
            (List.replicate 2 Cell.EMPTY) ++
          c4GameGrid.filter (fun row => ! isFullGameRow row) ∧
      (clearFullRows c4Grid c4GameGrid).newGrid.length = c4Grid.length ∧
      (clearFullRows c4Grid c4GameGrid).newGameGrid.length = c4GameGrid.length ∧
      (∀ row ∈ (clearFullRows c4Grid c4GameGrid).newGrid, row.length = 2) ∧
      (∀ row ∈ (clearFullRows c4Grid c4GameGrid).newGameGrid, row.length = 2)) :=
  ⟨by decide, by decide, by decide, rfl,
    C4_amended_clearFullRows_shape c4Grid c4GameGrid 2 (by decide) (by decide)
      (by decide) rfl
      (List.Forall₂.cons (by decide)
        (List.Forall₂.cons (by decide) List.Forall₂.nil))⟩

end Tetris
